import Mathlib

/-!
Shallow embedding of the MCP + Gemini client scripts
(`integrate-with-llm/client-gemini.py`, `github-mcp/client-gemini-github.py`)
and of the weather MCP server tool `convert_temperature`
(`weather-mcp-agent/weather_server.py`).

The two client scripts share the same structure; the embedding follows
`client-gemini.py` (the github variant differs only in the system-instruction
string, extra printing and the extra GitHub token check).  The external
collaborators (the MCP session and the Gemini backend) are modelled through
an environment record: the list-tools result, the first completion response,
the tool-invocation function, and the follow-up completion response.
Python exceptions are modelled with `Except`; observable effects (list-tools
round trips, completion requests, tool invocations) are recorded in an
event trace so that call counts and ordering can be stated.
-/

namespace types

/-- Gemini `types.FunctionCall`: tool name plus the argument mapping.
Argument values are passed through verbatim by the client, so they are
modelled opaquely as strings. -/
structure FunctionCall where
  name : String
  args : List (String × String)
deriving Repr, DecidableEq

/-- Gemini `types.Part`: each response part is exactly one of a text part,
a function-call part, or (client-built, via `Part.from_function_response`)
a function-response part carrying the single result string the client puts
under the "result" key. -/
inductive Part where
  | text (s : String)
  | functionCall (fc : FunctionCall)
  | functionResponse (name : String) (result : String)
deriving Repr, DecidableEq

/-- Gemini `types.Content`: a role together with an ordered list of parts. -/
structure Content where
  role : String
  parts : List Part
deriving Repr, DecidableEq

/-- Gemini `types.FunctionDeclaration`: the LLM-facing projection of an MCP
tool.  The JSON `parameters` schema is passed through verbatim, so it is
modelled opaquely as a string. -/
structure FunctionDeclaration where
  name : String
  description : String
  parameters : String
deriving Repr, DecidableEq

/-- Gemini `types.Tool`: a bundle of function declarations. -/
structure Tool where
  function_declarations : List FunctionDeclaration
deriving Repr, DecidableEq

/-- Gemini `types.GenerateContentConfig`: the client either passes `tools=`
(first call) or omits it (follow-up call), and always passes the system
instruction. -/
structure GenerateContentConfig where
  tools : Option (List Tool)
  system_instruction : String
deriving Repr, DecidableEq

end types

namespace mcp

/-- An MCP tool descriptor as returned by `session.list_tools()`:
`name`, `description`, `inputSchema` (the JSON schema is passed through
verbatim, modelled opaquely as a string). -/
structure Tool where
  name : String
  description : String
  inputSchema : String
deriving Repr, DecidableEq

/-- One entry of the `content` list of an MCP tool result (`.text` is the only
field the client reads). -/
structure TextContent where
  text : String
deriving Repr, DecidableEq

/-- The result of `session.call_tool`: an ordered `content` list. -/
structure CallToolResult where
  content : List TextContent
deriving Repr, DecidableEq

end mcp

/-- Python-level failures that can escape `process_query`.
`toolError` is an exception propagating out of `session.call_tool`;
`indexError` is the out-of-bounds access `result.content[0]` on an empty
content list.  `toolInvocationError` and `unknownToolError` are the error
kinds named by the specification; the source defines no such classes and
the embedded code never constructs them — they exist here so that claims
about them can be stated. -/
inductive PyError where
  | toolError (msg : String)
  | indexError
  | toolInvocationError (tool : String) (msg : String)
  | unknownToolError (tool : String)
deriving Repr, DecidableEq

deriving instance DecidableEq for Except

/-- An entry of the `contents=` list of a Gemini request: the client passes
either a plain string (the query) or a `types.Content`. -/
inductive ContentEntry where
  | str (s : String)
  | content (c : types.Content)
deriving Repr, DecidableEq

/-- Observable effects of one `process_query` run, in order: the
`list_tools` round trip, each `generate_content` request (with its contents
and config), and each `session.call_tool` invocation. -/
inductive Event where
  | listTools
  | generate (contents : List ContentEntry) (config : types.GenerateContentConfig)
  | invokeTool (name : String) (args : List (String × String))
deriving Repr, DecidableEq

/-- Whether an event is a `generate_content` request. -/
def isGenerateEvent : Event → Bool
  | Event.generate _ _ => true
  | _ => false

/-- A first completion response, as the client reads it:
`response.candidates[0].content`. -/
structure GenerateResponse where
  content : types.Content
deriving Repr, DecidableEq

/-- `response.text` of the google-genai SDK: the concatenation of the text
parts of the response content. -/
def GenerateResponse.text (r : GenerateResponse) : String :=
  String.join (r.content.parts.filterMap fun p =>
    match p with
    | types.Part.text s => some s
    | _ => none)

/-- The external collaborators of one `process_query` run: the tools
advertised by the provider, the first Gemini response, the invoke
operation (`session.call_tool`, which may raise), and the follow-up Gemini
response. -/
structure Env where
  tools : List mcp.Tool
  firstResponse : GenerateResponse
  invoke : String → List (String × String) → Except String mcp.CallToolResult
  followupResponse : GenerateResponse

/-- `get_gemini_tools`: one `FunctionDeclaration` per MCP tool, wrapped in a
single `types.Tool`, exactly as the list comprehension in the source. -/
def get_gemini_tools (tools_result : List mcp.Tool) : List types.Tool :=
  [⟨tools_result.map fun tool => ⟨tool.name, tool.description, tool.inputSchema⟩⟩]

/-- The hard-coded system instruction of `client-gemini.py`. -/
def system_instruction : String :=
  "You are a workplace assistant with access to a knowledge base of sarcastic/funny responses. When the user asks a question, ALWAYS check the knowledge base first using the available tool to see if there\x27s a matching response. If found, use that response."

/-- The `part.function_call` field: `some` exactly on function-call parts. -/
def partCall : types.Part → Option types.FunctionCall
  | types.Part.functionCall fc => some fc
  | _ => none

/-- Truthiness of `part.function_call` in the dispatch loop. -/
def isFunctionCallPart : types.Part → Bool
  | types.Part.functionCall _ => true
  | _ => false

/-- The function-call parts of a response, in response order. -/
def functionCalls (ps : List types.Part) : List types.FunctionCall :=
  ps.filterMap partCall

/-- The dispatch loop of `process_query`: scan the parts in order; on each
function-call part call the provider, then read `result.content[0].text`
into a function-response part.  A raised invoke exception or an
out-of-bounds `content[0]` aborts the loop; the calls made so far are
recorded in the returned event list. -/
def dispatchParts (invoke : String → List (String × String) → Except String mcp.CallToolResult) :
    List types.Part → List Event × Except PyError (List types.Part)
  | [] => ([], Except.ok [])
  | types.Part.text _ :: rest => dispatchParts invoke rest
  | types.Part.functionResponse _ _ :: rest => dispatchParts invoke rest
  | types.Part.functionCall fc :: rest =>
    match invoke fc.name fc.args with
    | Except.error msg => ([Event.invokeTool fc.name fc.args], Except.error (PyError.toolError msg))
    | Except.ok r =>
      match r.content with
      | [] => ([Event.invokeTool fc.name fc.args], Except.error PyError.indexError)
      | tc :: _ =>
        let d := dispatchParts invoke rest
        (Event.invokeTool fc.name fc.args :: d.1,
         d.2.map fun tps => types.Part.functionResponse fc.name tc.text :: tps)

/-- The string `result.content[0].text` that the client extracts from a
successful invoke with non-empty content (and `""` otherwise). -/
def firstText (r : Except String mcp.CallToolResult) : String :=
  match r with
  | Except.ok res =>
    match res.content with
    | tc :: _ => tc.text
    | [] => ""
  | Except.error _ => ""

/-- `process_query` of `client-gemini.py`: fetch the catalog, issue the
first completion request (query as sole content, tools advertised), scan
the response parts dispatching each function call, and — when at least one
function call was present — issue the follow-up completion request with the
ordered triple (query, first response content, synthetic tool turn) and no
tools advertised; otherwise return the text of the first response.  The returned
pair is (event trace, result or propagated exception). -/
def process_query (query : String) (env : Env) : List Event × Except PyError String :=
  let gemini_tools := get_gemini_tools env.tools
  let cfg1 : types.GenerateContentConfig := ⟨some gemini_tools, system_instruction⟩
  let pre : List Event := [Event.listTools, Event.generate [ContentEntry.str query] cfg1]
  let response := env.firstResponse
  let d := dispatchParts env.invoke response.content.parts
  match d.2 with
  | Except.error e => (pre ++ d.1, Except.error e)
  | Except.ok tool_parts =>
    if response.content.parts.any isFunctionCallPart then
      let contents : List ContentEntry :=
        [ContentEntry.str query, ContentEntry.content response.content,
         ContentEntry.content ⟨"tool", tool_parts⟩]
      (pre ++ d.1 ++ [Event.generate contents ⟨none, system_instruction⟩],
       Except.ok env.followupResponse.text)
    else
      (pre ++ d.1, Except.ok response.text)

/-! ## Structural lemmas about the dispatch loop -/

/-- A response has a function-call part iff `functionCalls` is non-empty. -/
theorem any_isFunctionCallPart_eq (ps : List types.Part) :
    ps.any isFunctionCallPart = !(functionCalls ps).isEmpty := by
  induction ps with
  | nil => rfl
  | cons p rest ih =>
    cases p <;> simp [functionCalls, partCall, isFunctionCallPart, List.filterMap_cons] at ih ⊢
      <;> exact ih

/-- When every requested invoke succeeds with non-empty content, the
dispatch loop makes exactly one invoke per function-call part, in response
order, and produces one function-response part per call, in the same
order, each carrying `result.content[0].text`. -/
theorem dispatchParts_ok
    (invoke : String → List (String × String) → Except String mcp.CallToolResult)
    (ps : List types.Part)
    (h : ∀ fc ∈ functionCalls ps,
      ∃ r, invoke fc.name fc.args = Except.ok r ∧ r.content ≠ []) :
    dispatchParts invoke ps =
      ((functionCalls ps).map fun fc => Event.invokeTool fc.name fc.args,
       Except.ok ((functionCalls ps).map fun fc =>
         types.Part.functionResponse fc.name (firstText (invoke fc.name fc.args)))) := by
  induction ps with
  | nil => rfl
  | cons p rest ih =>
    cases p with
    | text s =>
      have h' : ∀ fc ∈ functionCalls rest,
          ∃ r, invoke fc.name fc.args = Except.ok r ∧ r.content ≠ [] := by
        intro fc hfc
        exact h fc (by simpa [functionCalls, partCall, List.filterMap_cons] using hfc)
      simpa [functionCalls, partCall, List.filterMap_cons, dispatchParts] using ih h'
    | functionResponse n r =>
      have h' : ∀ fc ∈ functionCalls rest,
          ∃ r, invoke fc.name fc.args = Except.ok r ∧ r.content ≠ [] := by
        intro fc hfc
        exact h fc (by simpa [functionCalls, partCall, List.filterMap_cons] using hfc)
      simpa [functionCalls, partCall, List.filterMap_cons, dispatchParts] using ih h'
    | functionCall fc =>
      have hfl : functionCalls (types.Part.functionCall fc :: rest) = fc :: functionCalls rest := by
        simp [functionCalls, partCall, List.filterMap_cons]
      have hmem : fc ∈ functionCalls (types.Part.functionCall fc :: rest) := by
        rw [hfl]; exact List.mem_cons_self fc _
      obtain ⟨r, hr, hne⟩ := h fc hmem
      obtain ⟨tc, tl, htc⟩ : ∃ tc tl, r.content = tc :: tl := by
        cases hc : r.content with
        | nil => exact absurd hc hne
        | cons a b => exact ⟨a, b, rfl⟩
      have h' : ∀ g ∈ functionCalls rest,
          ∃ r, invoke g.name g.args = Except.ok r ∧ r.content ≠ [] := by
        intro g hg
        exact h g (by rw [hfl]; exact List.mem_cons_of_mem fc hg)
      simp [functionCalls, partCall, List.filterMap_cons, dispatchParts, hr, htc,
        ih h', firstText, Except.map]

/-- Every event recorded by the dispatch loop is a tool invocation (never a
completion request). -/
theorem dispatchParts_no_generate
    (invoke : String → List (String × String) → Except String mcp.CallToolResult)
    (ps : List types.Part) :
    ∀ ev ∈ (dispatchParts invoke ps).1, isGenerateEvent ev = false := by
  induction ps with
  | nil => intro ev hev; simp [dispatchParts] at hev
  | cons p rest ih =>
    cases p with
    | text s => simpa [dispatchParts] using ih
    | functionResponse n r => simpa [dispatchParts] using ih
    | functionCall fc =>
      intro ev hev
      simp only [dispatchParts] at hev
      split at hev
      · simp at hev; simp [hev, isGenerateEvent]
      · split at hev
        · simp at hev; simp [hev, isGenerateEvent]
        · simp at hev
          rcases hev with hev | hev
          · simp [hev, isGenerateEvent]
          · exact ih ev hev

/-! ## Concrete environments used to witness the theorems -/

/-- A provider whose invoke always succeeds with a one-entry content list. -/
def okInvoke : String → List (String × String) → Except String mcp.CallToolResult :=
  fun n _ => Except.ok ⟨[⟨"result of " ++ n⟩]⟩

/-- Environment whose first response requests two tool calls (after a text
part). -/
def c1Env : Env :=
  { tools := [⟨"add", "Add two numbers", "schema_add"⟩, ⟨"subtract", "Subtract", "schema_sub"⟩],
    firstResponse := ⟨⟨"model",
      [types.Part.text "Let me compute.",
       types.Part.functionCall ⟨"add", [("a", "1"), ("b", "2")]⟩,
       types.Part.functionCall ⟨"subtract", [("a", "3"), ("b", "2")]⟩]⟩⟩,
    invoke := okInvoke,
    followupResponse := ⟨⟨"model", [types.Part.text "The answer is 1."]⟩⟩ }

/-- Environment whose first response requests a single tool call. -/
def c2Env : Env :=
  { tools := [⟨"add", "Add two numbers", "schema_add"⟩],
    firstResponse := ⟨⟨"model", [types.Part.functionCall ⟨"add", [("a", "2"), ("b", "3")]⟩]⟩⟩,
    invoke := okInvoke,
    followupResponse := ⟨⟨"model", [types.Part.text "2 plus 3 is 5."]⟩⟩ }

/-- Environment whose first response is text only (no function calls). -/
def c3Env : Env :=
  { tools := [⟨"add", "Add two numbers", "schema_add"⟩],
    firstResponse := ⟨⟨"model", [types.Part.text "Hello! ", types.Part.text "How can I help?"]⟩⟩,
    invoke := okInvoke,
    followupResponse := ⟨⟨"model", [types.Part.text "unused"]⟩⟩ }

/-! ## Claim theorems -/

/-- C1: if the first response contains K function-call parts (K ≥ 1) and
every requested invocation succeeds, `process_query` makes exactly K
invoke calls, one per function-call part, in response order, and all of
them appear in the trace before the single follow-up completion request. -/
theorem process_query_dispatch_order (query : String) (env : Env) (K : ℕ)
    (hK : (functionCalls env.firstResponse.content.parts).length = K)
    (h1 : 1 ≤ K)
    (hok : ∀ fc ∈ functionCalls env.firstResponse.content.parts,
      ∃ r, env.invoke fc.name fc.args = Except.ok r ∧ r.content ≠ []) :
    ∃ cs cfg, (process_query query env).1 =
      [Event.listTools,
       Event.generate [ContentEntry.str query]
         ⟨some (get_gemini_tools env.tools), system_instruction⟩]
      ++ (functionCalls env.firstResponse.content.parts).map
           (fun fc => Event.invokeTool fc.name fc.args)
      ++ [Event.generate cs cfg]
    ∧ ((functionCalls env.firstResponse.content.parts).map
         (fun fc => Event.invokeTool fc.name fc.args)).length = K := by
  have hd := dispatchParts_ok env.invoke env.firstResponse.content.parts hok
  have hne : functionCalls env.firstResponse.content.parts ≠ [] := by
    intro hnil
    rw [hnil] at hK
    simp at hK
    omega
  have hany : env.firstResponse.content.parts.any isFunctionCallPart = true := by
    rw [any_isFunctionCallPart_eq]
    simp [List.isEmpty_iff, hne]
  refine ⟨[ContentEntry.str query, ContentEntry.content env.firstResponse.content,
           ContentEntry.content ⟨"tool",
             (functionCalls env.firstResponse.content.parts).map fun fc =>
               types.Part.functionResponse fc.name (firstText (env.invoke fc.name fc.args))⟩],
          ⟨none, system_instruction⟩, ?_, by simp [hK]⟩
  simp [process_query, hd, hany]

/-- Witness for C1 at a concrete environment with two requested calls. -/
theorem process_query_dispatch_order_witness :
    (functionCalls c1Env.firstResponse.content.parts).length = 2 ∧
    (∃ cs cfg, (process_query "compute" c1Env).1 =
      [Event.listTools,
       Event.generate [ContentEntry.str "compute"]
         ⟨some (get_gemini_tools c1Env.tools), system_instruction⟩]
      ++ (functionCalls c1Env.firstResponse.content.parts).map
           (fun fc => Event.invokeTool fc.name fc.args)
      ++ [Event.generate cs cfg]
    ∧ ((functionCalls c1Env.firstResponse.content.parts).map
         (fun fc => Event.invokeTool fc.name fc.args)).length = 2) :=
  ⟨by decide, process_query_dispatch_order "compute" c1Env 2 (by decide) (by decide)
    (fun fc _ => ⟨⟨[⟨"result of " ++ fc.name⟩]⟩, rfl, by simp⟩)⟩

/-- C2: when the first response contains at least one function call and
every requested invocation succeeds, the contents of the follow-up
completion request are exactly the ordered triple (query, first response content,
synthetic tool-role turn holding one function-response part per dispatched
call, in dispatch order), the follow-up config advertises no tools, and the
final answer is the text of the follow-up response. -/
theorem process_query_followup_shape (query : String) (env : Env)
    (hcall : env.firstResponse.content.parts.any isFunctionCallPart = true)
    (hok : ∀ fc ∈ functionCalls env.firstResponse.content.parts,
      ∃ r, env.invoke fc.name fc.args = Except.ok r ∧ r.content ≠ []) :
    ∃ pre, (process_query query env).1 = pre ++
      [Event.generate
        [ContentEntry.str query,
         ContentEntry.content env.firstResponse.content,
         ContentEntry.content ⟨"tool",
           (functionCalls env.firstResponse.content.parts).map fun fc =>
             types.Part.functionResponse fc.name (firstText (env.invoke fc.name fc.args))⟩]
        ⟨none, system_instruction⟩]
    ∧ (process_query query env).2 = Except.ok env.followupResponse.text := by
  have hd := dispatchParts_ok env.invoke env.firstResponse.content.parts hok
  refine ⟨[Event.listTools,
           Event.generate [ContentEntry.str query]
             ⟨some (get_gemini_tools env.tools), system_instruction⟩]
          ++ (functionCalls env.firstResponse.content.parts).map
               (fun fc => Event.invokeTool fc.name fc.args), ?_, ?_⟩
  · simp [process_query, hd, hcall]
  · simp [process_query, hd, hcall]

/-- Witness for C2 at a concrete environment with one requested call. -/
theorem process_query_followup_shape_witness :
    c2Env.firstResponse.content.parts.any isFunctionCallPart = true ∧
    (∃ pre, (process_query "what is 2 plus 3" c2Env).1 = pre ++
      [Event.generate
        [ContentEntry.str "what is 2 plus 3",
         ContentEntry.content c2Env.firstResponse.content,
         ContentEntry.content ⟨"tool",
           (functionCalls c2Env.firstResponse.content.parts).map fun fc =>
             types.Part.functionResponse fc.name (firstText (c2Env.invoke fc.name fc.args))⟩]
        ⟨none, system_instruction⟩]
    ∧ (process_query "what is 2 plus 3" c2Env).2 = Except.ok c2Env.followupResponse.text) :=
  ⟨by decide, process_query_followup_shape "what is 2 plus 3" c2Env (by decide)
    (fun fc _ => ⟨⟨[⟨"result of " ++ fc.name⟩]⟩, rfl, by simp⟩)⟩

/-- C3: when the first response contains zero function-call parts,
`process_query` performs no tool invocation, issues no second completion
request (the trace is exactly the list-tools round trip and the single
first request), and returns exactly the text of the first response. -/
theorem process_query_no_tool_calls (query : String) (env : Env)
    (h : env.firstResponse.content.parts.any isFunctionCallPart = false) :
    process_query query env =
      ([Event.listTools,
        Event.generate [ContentEntry.str query]
          ⟨some (get_gemini_tools env.tools), system_instruction⟩],
       Except.ok env.firstResponse.text) := by
  have hnil : functionCalls env.firstResponse.content.parts = [] := by
    rw [any_isFunctionCallPart_eq] at h
    simpa [List.isEmpty_iff] using h
  have hd := dispatchParts_ok env.invoke env.firstResponse.content.parts
    (by rw [hnil]; intro fc hfc; simp at hfc)
  rw [hnil] at hd
  simp only [List.map_nil] at hd
  simp [process_query, hd, h]

/-- Witness for C3 at a concrete text-only environment. -/
theorem process_query_no_tool_calls_witness :
    c3Env.firstResponse.content.parts.any isFunctionCallPart = false ∧
    process_query "hello" c3Env =
      ([Event.listTools,
        Event.generate [ContentEntry.str "hello"]
          ⟨some (get_gemini_tools c3Env.tools), system_instruction⟩],
       Except.ok c3Env.firstResponse.text) :=
  ⟨by decide, process_query_no_tool_calls "hello" c3Env (by decide)⟩

/-- Environment whose only requested tool call fails: the invoke of the provider
raises with message "connection reset". -/
def c5Env : Env :=
  { tools := [⟨"add", "Add two numbers", "schema_add"⟩],
    firstResponse := ⟨⟨"model", [types.Part.functionCall ⟨"add", [("a", "2"), ("b", "3")]⟩]⟩⟩,
    invoke := fun _ _ => Except.error "connection reset",
    followupResponse := ⟨⟨"model", [types.Part.text "unused"]⟩⟩ }

/-- Whether a `process_query` outcome is a `ToolInvocationError` naming the
given tool (the error shape the specification prescribes). -/
def namesToolInvocationError : Except PyError String → String → Bool
  | Except.error (PyError.toolInvocationError t _), tool => t = tool
  | _, _ => false

/-- C5 counterexample: when the only requested invocation raises
"connection reset" on tool "add", `process_query` propagates the raw
provider exception unchanged — the outcome is not a `ToolInvocationError`
naming "add" (the source defines no such wrapper), refuting the claim as
stated; only one completion request (the first) is ever issued. -/
theorem tool_failure_not_wrapped_cex :
    (process_query "what is 2 plus 3" c5Env).2 =
      Except.error (PyError.toolError "connection reset") ∧
    namesToolInvocationError (process_query "what is 2 plus 3" c5Env).2 "add" = false ∧
    ((process_query "what is 2 plus 3" c5Env).1.filter isGenerateEvent).length = 1 := by
  decide

/-- C5 amended: when the dispatch loop aborts because an invocation raised,
`process_query` propagates that underlying exception unchanged (no wrapper
naming the tool) and issues no follow-up completion request — exactly one
completion request appears in the trace. -/
theorem process_query_invoke_failure (query : String) (env : Env)
    (evs : List Event) (e : PyError)
    (h : dispatchParts env.invoke env.firstResponse.content.parts = (evs, Except.error e)) :
    (process_query query env).2 = Except.error e ∧
    ((process_query query env).1.filter isGenerateEvent).length = 1 := by
  have hng := dispatchParts_no_generate env.invoke env.firstResponse.content.parts
  rw [h] at hng
  have hfil : evs.filter isGenerateEvent = [] := by
    rw [List.filter_eq_nil_iff]
    intro ev hev
    simp [hng ev hev]
  constructor
  · simp [process_query, h]
  · simp [process_query, h, List.filter_append, hfil, isGenerateEvent]

/-- Witness for the amended C5 at the concrete failing environment. -/
theorem process_query_invoke_failure_witness :
    (process_query "q" c5Env).2 = Except.error (PyError.toolError "connection reset") ∧
    ((process_query "q" c5Env).1.filter isGenerateEvent).length = 1 :=
  process_query_invoke_failure "q" c5Env
    [Event.invokeTool "add" [("a", "2"), ("b", "3")]]
    (PyError.toolError "connection reset") (by decide)

/-- Environment in which the first response requests the tool "ghost",
which the provider does not advertise; the invoke operation nevertheless
answers (as an external process may). -/
def c6Env : Env :=
  { tools := [⟨"add", "Add two numbers", "schema_add"⟩],
    firstResponse := ⟨⟨"model", [types.Part.functionCall ⟨"ghost", []⟩]⟩⟩,
    invoke := fun _ _ => Except.ok ⟨[⟨"no such tool"⟩]⟩,
    followupResponse := ⟨⟨"model", [types.Part.text "final answer"]⟩⟩ }

/-- Whether a `process_query` outcome is an `UnknownToolError` (the error
the specification prescribes for catalog misses). -/
def isUnknownToolError : Except PyError String → Bool
  | Except.error (PyError.unknownToolError _) => true
  | _ => false

/-- C6 counterexample: "ghost" is not in the advertised catalog, yet the
loop performs no catalog check — it dispatches "ghost" to the provider,
raises no `UnknownToolError`, issues the follow-up completion request
(two completion requests in the trace), and returns the follow-up text. -/
theorem unknown_tool_not_raised_cex :
    ("ghost" ∉ c6Env.tools.map mcp.Tool.name) ∧
    isUnknownToolError (process_query "summon a ghost" c6Env).2 = false ∧
    Event.invokeTool "ghost" [] ∈ (process_query "summon a ghost" c6Env).1 ∧
    (process_query "summon a ghost" c6Env).2 = Except.ok "final answer" ∧
    ((process_query "summon a ghost" c6Env).1.filter isGenerateEvent).length = 2 := by
  decide

/-- C6 amended: the orchestration loop never consults the catalog while
dispatching: a function-call part whose name is absent from the advertised
tools is dispatched to the provider exactly like a known one, and when all
invocations succeed the query completes normally with the follow-up text
(no `UnknownToolError` is ever raised). -/
theorem process_query_dispatches_unknown_names (query : String) (env : Env)
    (fc : types.FunctionCall)
    (hmem : fc ∈ functionCalls env.firstResponse.content.parts)
    (hunknown : fc.name ∉ env.tools.map mcp.Tool.name)
    (hok : ∀ g ∈ functionCalls env.firstResponse.content.parts,
      ∃ r, env.invoke g.name g.args = Except.ok r ∧ r.content ≠ []) :
    Event.invokeTool fc.name fc.args ∈ (process_query query env).1 ∧
    (process_query query env).2 = Except.ok env.followupResponse.text := by
  have hd := dispatchParts_ok env.invoke env.firstResponse.content.parts hok
  have hany : env.firstResponse.content.parts.any isFunctionCallPart = true := by
    rw [any_isFunctionCallPart_eq]
    have : functionCalls env.firstResponse.content.parts ≠ [] :=
      List.ne_nil_of_mem hmem
    simp [List.isEmpty_iff, this]
  have htr : (process_query query env).1 =
      [Event.listTools,
       Event.generate [ContentEntry.str query]
         ⟨some (get_gemini_tools env.tools), system_instruction⟩]
      ++ ((functionCalls env.firstResponse.content.parts).map
            (fun g => Event.invokeTool g.name g.args)
          ++ [Event.generate
               [ContentEntry.str query,
                ContentEntry.content env.firstResponse.content,
                ContentEntry.content ⟨"tool",
                  (functionCalls env.firstResponse.content.parts).map fun g =>
                    types.Part.functionResponse g.name (firstText (env.invoke g.name g.args))⟩]
               ⟨none, system_instruction⟩]) := by
    simp [process_query, hd, hany]
  constructor
  · rw [htr]
    refine List.mem_append.mpr (Or.inr ?_)
    refine List.mem_append.mpr (Or.inl ?_)
    exact List.mem_map_of_mem _ hmem
  · simp [process_query, hd, hany]

/-- Witness for the amended C6 at the concrete "ghost" environment. -/
theorem process_query_dispatches_unknown_names_witness :
    Event.invokeTool "ghost" [] ∈ (process_query "q" c6Env).1 ∧
    (process_query "q" c6Env).2 = Except.ok c6Env.followupResponse.text :=
  process_query_dispatches_unknown_names "q" c6Env ⟨"ghost", []⟩
    (by decide) (by decide)
    (fun g _ => ⟨⟨[⟨"no such tool"⟩]⟩, rfl, by simp⟩)

/-- C9: for every dispatched call the client reads only
`result.content[0].text`: an empty content list makes the extraction fail
with an index error, and any content entries after the first are dropped —
a result with content `tc :: rest` behaves exactly like one with `[tc]`,
and the synthetic tool turn carries `tc.text`. -/
theorem process_query_reads_first_content_entry (query : String)
    (fc : types.FunctionCall) (tc : mcp.TextContent) (rest : List mcp.TextContent)
    (tools : List mcp.Tool) (fu : GenerateResponse) :
    (process_query query ⟨tools, ⟨⟨"model", [types.Part.functionCall fc]⟩⟩,
        fun _ _ => Except.ok ⟨[]⟩, fu⟩).2 = Except.error PyError.indexError ∧
    process_query query ⟨tools, ⟨⟨"model", [types.Part.functionCall fc]⟩⟩,
        fun _ _ => Except.ok ⟨tc :: rest⟩, fu⟩ =
      process_query query ⟨tools, ⟨⟨"model", [types.Part.functionCall fc]⟩⟩,
        fun _ _ => Except.ok ⟨[tc]⟩, fu⟩ ∧
    (process_query query ⟨tools, ⟨⟨"model", [types.Part.functionCall fc]⟩⟩,
        fun _ _ => Except.ok ⟨tc :: rest⟩, fu⟩).1 =
      [Event.listTools,
       Event.generate [ContentEntry.str query]
         ⟨some (get_gemini_tools tools), system_instruction⟩,
       Event.invokeTool fc.name fc.args,
       Event.generate
        [ContentEntry.str query,
         ContentEntry.content ⟨"model", [types.Part.functionCall fc]⟩,
         ContentEntry.content ⟨"tool", [types.Part.functionResponse fc.name tc.text]⟩]
        ⟨none, system_instruction⟩] := by
  refine ⟨?_, ?_, ?_⟩ <;>
    simp [process_query, dispatchParts, isFunctionCallPart, Except.map]

/-! ## Session lifecycle (`connect_to_server`, `cleanup`, `main`) -/

/-- Model of `contextlib.AsyncExitStack`: the contexts entered so far, in
entry order. -/
structure AsyncExitStack where
  entered : List String
deriving Repr, DecidableEq

/-- `enter_async_context`: push a context onto the stack. -/
def AsyncExitStack.enter (s : AsyncExitStack) (r : String) : AsyncExitStack :=
  ⟨s.entered ++ [r]⟩

/-- `aclose`: unwind every entered context in LIFO order and leave the
stack empty.  Returns the released contexts in release order. -/
def AsyncExitStack.aclose (s : AsyncExitStack) : List String × AsyncExitStack :=
  (s.entered.reverse, ⟨[]⟩)

/-- `connect_to_server`: enter the stdio transport, then the MCP client
session, on the exit stack of the client. -/
def connect_to_server (s : AsyncExitStack) : AsyncExitStack :=
  (s.enter "stdio_client").enter "ClientSession"

/-- Model of `main()` in `client-gemini.py`: connect, run the query, then
call `cleanup` — with no try/finally, so an exception escaping
`process_query` propagates and `cleanup` is never reached.  Returns the
released contexts (in release order) and whether `main` completed. -/
def main_run (env : Env) : List String × Bool :=
  let stack := connect_to_server ⟨[]⟩
  match (process_query "Hey, how are you doing?" env).2 with
  | Except.error _ => ([], false)
  | Except.ok _ => ((stack.aclose).1, true)

/-- Environment whose only requested invocation raises, so that
`process_query` exits with an error after connect succeeded. -/
def c7ErrEnv : Env :=
  { tools := [⟨"get_response", "Look up a canned response", "schema_kb"⟩],
    firstResponse := ⟨⟨"model", [types.Part.functionCall ⟨"get_response", [("q", "hi")]⟩]⟩⟩,
    invoke := fun _ _ => Except.error "broken pipe",
    followupResponse := ⟨⟨"model", [types.Part.text "unused"]⟩⟩ }

/-- Environment whose query succeeds without tool calls. -/
def c7OkEnv : Env :=
  { tools := [⟨"get_response", "Look up a canned response", "schema_kb"⟩],
    firstResponse := ⟨⟨"model", [types.Part.text "Doing great!"]⟩⟩,
    invoke := fun _ _ => Except.error "never called",
    followupResponse := ⟨⟨"model", [types.Part.text "unused"]⟩⟩ }

/-- C7 counterexample: `connect_to_server` opens two resources, yet when
`process_query` exits via an error, `main` (which has no try/finally)
never reaches `cleanup` and releases nothing — the resources stay held,
refuting guaranteed release on all exit paths. -/
theorem cleanup_skipped_on_error_cex :
    (connect_to_server ⟨[]⟩).entered = ["stdio_client", "ClientSession"] ∧
    main_run c7ErrEnv = ([], false) := by
  decide

/-- C7 amended: `cleanup` itself does release every resource opened during
connect, exactly once and in LIFO order, and a second `cleanup` releases
nothing (the stack is emptied); but it only runs on the success path of
`main` — it is not guaranteed on error exits. -/
theorem cleanup_releases_all_on_success (env : Env)
    (h : ∃ s, (process_query "Hey, how are you doing?" env).2 = Except.ok s) :
    main_run env = (["ClientSession", "stdio_client"], true) ∧
    ((connect_to_server ⟨[]⟩).aclose.2).aclose.1 = [] := by
  obtain ⟨s, hs⟩ := h
  constructor
  · simp [main_run, hs, connect_to_server, AsyncExitStack.enter, AsyncExitStack.aclose]
  · rfl

/-- Witness for the amended C7 at a successful text-only query. -/
theorem cleanup_releases_all_on_success_witness :
    main_run c7OkEnv = (["ClientSession", "stdio_client"], true) ∧
    ((connect_to_server ⟨[]⟩).aclose.2).aclose.1 = [] :=
  cleanup_releases_all_on_success c7OkEnv ⟨"Doing great!", by rfl⟩

/-! ## Client construction (`MCPGeminiClient.__init__`) -/

/-- The failure kinds for client construction / completion calls.
`valueError` is the `ValueError` the constructor raises;
`authenticationError` is the error kind named by the specification — the
source defines no such class and never constructs it. -/
inductive InitError where
  | valueError (msg : String)
  | authenticationError (msg : String)
deriving Repr, DecidableEq

/-- The state a successfully constructed client holds. -/
structure ClientState where
  api_key : String
  model : String
deriving Repr, DecidableEq

/-- `MCPGeminiClient.__init__`: read `GEMINI_API_KEY` and `GEMINI_MODEL`
from the environment; a falsy key (unset or empty) raises
`ValueError("GEMINI_API_KEY is not set")` before any client exists, so no
completion call can ever be attempted with an absent key. -/
def clientInit (gemini_api_key : Option String) (gemini_model : Option String) :
    Except InitError ClientState :=
  match gemini_api_key with
  | none => Except.error (InitError.valueError "GEMINI_API_KEY is not set")
  | some k =>
    if k = "" then Except.error (InitError.valueError "GEMINI_API_KEY is not set")
    else Except.ok ⟨k, gemini_model.getD "gemini-2.5-flash"⟩

/-- Whether a construction outcome is the `AuthenticationError` the
specification prescribes. -/
def isAuthenticationError : Except InitError ClientState → Bool
  | Except.error (InitError.authenticationError _) => true
  | _ => false

/-- C8 counterexample: with the API key absent, construction fails with
`ValueError("GEMINI_API_KEY is not set")` — not an `AuthenticationError`
of a complete call (no client exists, so no complete call ever runs). -/
theorem absent_key_not_authentication_error_cex :
    clientInit none none = Except.error (InitError.valueError "GEMINI_API_KEY is not set") ∧
    isAuthenticationError (clientInit none none) = false := by
  decide

/-- C8 amended: whenever the API key is absent (unset or empty), the client
constructor raises `ValueError("GEMINI_API_KEY is not set")` immediately;
the failure is surfaced to the caller, no completion call is attempted and
nothing is retried. -/
theorem clientInit_absent_key (k m : Option String)
    (h : k = none ∨ k = some "") :
    clientInit k m = Except.error (InitError.valueError "GEMINI_API_KEY is not set") := by
  rcases h with h | h <;> subst h <;> rfl

/-- Witness for the amended C8 with the key unset. -/
theorem clientInit_absent_key_witness :
    clientInit none (some "gemini-2.5-pro") =
      Except.error (InitError.valueError "GEMINI_API_KEY is not set") :=
  clientInit_absent_key none (some "gemini-2.5-pro") (Or.inl rfl)

/-- C4: for every list of N provider tool descriptors, `get_gemini_tools`
produces a single `types.Tool` bundling exactly N function declarations,
where the name, description and parameters of the i-th declaration equal
the name, description and inputSchema of the i-th descriptor — no filtering,
renaming or reordering. -/
theorem get_gemini_tools_preserves (ts : List mcp.Tool) :
    ∃ gt, get_gemini_tools ts = [gt] ∧
      gt.function_declarations.length = ts.length ∧
      ∀ i, i < ts.length →
        ∃ d u, gt.function_declarations[i]? = some d ∧ ts[i]? = some u ∧
          d.name = u.name ∧ d.description = u.description ∧
          d.parameters = u.inputSchema := by
  refine ⟨_, rfl, by simp [get_gemini_tools], ?_⟩
  intro i hi
  have ht : ts[i]? = some ts[i] := List.getElem?_eq_getElem hi
  refine ⟨⟨ts[i].name, ts[i].description, ts[i].inputSchema⟩, ts[i], ?_, ht, rfl, rfl, rfl⟩
  simp [get_gemini_tools, List.getElem?_map, ht]

/-- A concrete two-tool catalog. -/
def c4Tools : List mcp.Tool :=
  [⟨"get_current_weather", "Get current weather for a city", "schema_weather"⟩,
   ⟨"get_forecast", "Get 5-day weather forecast", "schema_forecast"⟩]

/-- Witness for C4 at the concrete two-tool catalog. -/
theorem get_gemini_tools_preserves_witness :
    ∃ gt, get_gemini_tools c4Tools = [gt] ∧
      gt.function_declarations.length = c4Tools.length ∧
      ∀ i, i < c4Tools.length →
        ∃ d u, gt.function_declarations[i]? = some d ∧ c4Tools[i]? = some u ∧
          d.name = u.name ∧ d.description = u.description ∧
          d.parameters = u.inputSchema :=
  get_gemini_tools_preserves c4Tools

/-! ## Weather server: `convert_temperature` -/

/-- `celsius_to_fahrenheit` of `weather_server.py` (exact rational
arithmetic in place of Python floats). -/
def celsius_to_fahrenheit (celsius : ℚ) : ℚ := celsius * 9 / 5 + 32

/-- `fahrenheit_to_celsius` of `weather_server.py`. -/
def fahrenheit_to_celsius (fahrenheit : ℚ) : ℚ := (fahrenheit - 32) * 5 / 9

/-- `kelvin_to_celsius` of `weather_server.py`. -/
def kelvin_to_celsius (kelvin : ℚ) : ℚ := kelvin - 273.15

/-- Numeric value of a digit string. -/
def digitsToNat (ds : List Char) : ℕ :=
  ds.foldl (fun a c => 10 * a + (c.toNat - 48)) 0

/-- Parse an unsigned decimal mantissa (integer digits with an optional
fractional part); returns the value and the unconsumed remainder. -/
def parseMantissa (cs : List Char) : Option (ℚ × List Char) :=
  let ip := cs.takeWhile Char.isDigit
  let rest := cs.dropWhile Char.isDigit
  match rest with
  | '.' :: rest2 =>
    let fp := rest2.takeWhile Char.isDigit
    let rest3 := rest2.dropWhile Char.isDigit
    if ip.isEmpty && fp.isEmpty then none
    else some ((digitsToNat ip : ℚ) + (digitsToNat fp : ℚ) / ((10 : ℚ) ^ fp.length), rest3)
  | _ =>
    if ip.isEmpty then none
    else some ((digitsToNat ip : ℚ), rest)

/-- Parse an optionally signed run of digits, requiring the whole input to
be consumed (used for the exponent). -/
def parseSignedDigits : List Char → Option ℤ
  | '+' :: ds => if ds.isEmpty || !ds.all Char.isDigit then none else some (digitsToNat ds)
  | '-' :: ds => if ds.isEmpty || !ds.all Char.isDigit then none else some (-(digitsToNat ds : ℤ))
  | ds => if ds.isEmpty || !ds.all Char.isDigit then none else some (digitsToNat ds)

/-- Parse an unsigned float: a mantissa with an optional `e`/`E` exponent,
consuming the whole input. -/
def parseAbsFloat (cs : List Char) : Option ℚ :=
  match parseMantissa cs with
  | none => none
  | some (m, rest) =>
    match rest with
    | [] => some m
    | e :: rest2 =>
      if e = 'e' || e = 'E' then
        match parseSignedDigits rest2 with
        | some k => some (m * (10 : ℚ) ^ k)
        | none => none
      else none

/-- Model of Python `str.strip()`: drop whitespace from both ends. -/
def pyStrip (s : String) : String :=
  ⟨((s.toList.dropWhile Char.isWhitespace).reverse.dropWhile Char.isWhitespace).reverse⟩

/-- Model of Python `str.lower()` (the inputs compared here are ASCII). -/
def pyLower (s : String) : String :=
  ⟨s.toList.map Char.toLower⟩

/-- Model of Python `float(s)`: surrounding whitespace is ignored and an
optional sign precedes the mantissa.  The special spellings `inf`,
`infinity` and `nan` and digit-group underscores are not modelled; the
value is exact (a rational) rather than a binary float. -/
def pyFloat (s : String) : Option ℚ :=
  match (pyStrip s).toList with
  | '+' :: cs => parseAbsFloat cs
  | '-' :: cs => (parseAbsFloat cs).map Neg.neg
  | cs => parseAbsFloat cs

/-- The `valid_units` list of `convert_temperature`. -/
def valid_units : List String := ["celsius", "fahrenheit", "kelvin", "c", "f", "k"]

/-- The unit-name normalization chain of `convert_temperature`. -/
def normalizeUnit (u : String) : String :=
  let u1 := if u = "c" then "celsius" else u
  let u2 := if u1 = "f" then "fahrenheit" else u1
  if u2 = "k" then "kelvin" else u2

/-- Python `str.title()` on the one-word unit names used here. -/
def strTitle (s : String) : String := s.capitalize

/-- Rendering of a rational temperature value (Python float repr is not
modelled digit-for-digit; the exact rational is rendered instead). -/
def ratRepr (q : ℚ) : String :=
  if q.den = 1 then toString q.num ++ ".0"
  else toString q.num ++ "/" ++ toString q.den

/-- Rendering with two decimal places (Python `"%.2f"`), with rounding
modelled as round-half-away-from-midpoint on the exact rational. -/
def format2f (q : ℚ) : String :=
  let n : ℤ := round (q * 100)
  let sign := if n < 0 then "-" else ""
  let m := n.natAbs
  sign ++ toString (m / 100) ++ "." ++
    (if m % 100 < 10 then "0" else "") ++ toString (m % 100)

/-- `convert_temperature` of `weather_server.py`: validate the inputs
(blank temperature, blank units, units outside the valid list after
lower-casing, unparseable number), normalize unit names, convert through
Celsius, and render the result.  Every branch returns a string; error
branch messages are reproduced verbatim. -/
def convert_temperature (temperature from_unit to_unit : String) : String :=
  if pyStrip temperature = "" then
    "❌ Error: Temperature value is required"
  else if pyStrip from_unit = "" ∨ pyStrip to_unit = "" then
    "❌ Error: Both from_unit and to_unit are required"
  else
    let fu := pyLower from_unit
    let tu := pyLower to_unit
    if fu ∉ valid_units ∨ tu ∉ valid_units then
      "❌ Error: Units must be \x27celsius\x27/\x27c\x27, \x27fahrenheit\x27/\x27f\x27, or \x27kelvin\x27/\x27k\x27"
    else
      match pyFloat temperature with
      | none => "❌ Error: Invalid temperature value: " ++ temperature
      | some temp_value =>
        let fu2 := normalizeUnit fu
        let tu2 := normalizeUnit tu
        if fu2 = tu2 then
          "✅ " ++ ratRepr temp_value ++ "° " ++ strTitle fu2 ++ " = " ++
            ratRepr temp_value ++ "° " ++ strTitle tu2
        else
          let celsius :=
            if fu2 = "celsius" then temp_value
            else if fu2 = "fahrenheit" then fahrenheit_to_celsius temp_value
            else kelvin_to_celsius temp_value
          let result :=
            if tu2 = "celsius" then celsius
            else if tu2 = "fahrenheit" then celsius_to_fahrenheit celsius
            else celsius + 273.15
          let from_symbol :=
            if fu2 = "celsius" then "°C" else if fu2 = "fahrenheit" then "°F" else "K"
          let to_symbol :=
            if tu2 = "celsius" then "°C" else if tu2 = "fahrenheit" then "°F" else "K"
          "🌡️ **Temperature Conversion**\n" ++ ratRepr temp_value ++ from_symbol ++
            " = " ++ format2f result ++ to_symbol

/-- C10: `convert_temperature` is total (a plain string function), and for
every input with a blank temperature, a blank unit, a unit that is
(case-insensitively) outside the valid set, or a temperature that does not
parse as a number, the returned string begins with "❌ Error". -/
theorem convert_temperature_error_cases (t fu tu : String)
    (h : pyStrip t = "" ∨ pyStrip fu = "" ∨ pyStrip tu = "" ∨
      pyLower fu ∉ valid_units ∨ pyLower tu ∉ valid_units ∨ pyFloat t = none) :
    ∃ rest, convert_temperature t fu tu = "❌ Error" ++ rest := by
  by_cases h1 : pyStrip t = ""
  · refine ⟨": Temperature value is required", ?_⟩
    simp only [convert_temperature, if_pos h1]
    rfl
  · by_cases h2 : pyStrip fu = "" ∨ pyStrip tu = ""
    · refine ⟨": Both from_unit and to_unit are required", ?_⟩
      simp only [convert_temperature, if_neg h1, if_pos h2]
      rfl
    · by_cases h3 : pyLower fu ∉ valid_units ∨ pyLower tu ∉ valid_units
      · refine ⟨": Units must be \x27celsius\x27/\x27c\x27, \x27fahrenheit\x27/\x27f\x27, or \x27kelvin\x27/\x27k\x27", ?_⟩
        simp only [convert_temperature, if_neg h1, if_neg h2, if_pos h3]
        rfl
      · have h4 : pyFloat t = none := by
          rcases h with h | h | h | h | h | h
          · exact absurd h h1
          · exact absurd (Or.inl h) h2
          · exact absurd (Or.inr h) h2
          · exact absurd (Or.inl h) h3
          · exact absurd (Or.inr h) h3
          · exact h
        refine ⟨": Invalid temperature value: " ++ t, ?_⟩
        simp only [convert_temperature, if_neg h1, if_neg h2, if_neg h3, h4]
        rw [← String.append_assoc]
        rfl

/-- Witness for C10 at the blank temperature input. -/
theorem convert_temperature_error_cases_witness :
    pyStrip "" = "" ∧
    (∃ rest, convert_temperature "" "c" "f" = "❌ Error" ++ rest) :=
  ⟨by decide, convert_temperature_error_cases "" "c" "f" (Or.inl (by decide))⟩
